import Mathlib

/-!
Verification of the 2020runner remediation utility (src/main.go).

The single Go source file concatenates three program variants; we refer to
them as V1 (file lines 1-224), V2 (225-379) and V3 (380-598).  the logic of V2 is
a strict subset of that of V3 (same catalog logic, no software phase), so the
development embeds V1 and V3.  External collaborators (registry, filesystem,
XML decoding, spawned processes) are modelled as inputs: each function takes
the observable outcome of its reads and of the external commands it would
launch, and returns its Go results together with the list of external
commands it actually launched.  The driver `main` of each variant is embedded
as a function from an environment of such outcomes to a run trace (the read
and command events, in order) plus the terminal exit event.
-/

/-- Model of the Go `error` values arising in this program.  Two facts about
the real libraries matter to control flow and are reflected in the
constructors: `os.Open` reports failure with a `*PathError` value (so a
missing file surfaces as `pathErrNotExist`, a value distinct from the bare
package sentinel `os.ErrNotExist` = `osErrNotExistSentinel`, and the Go
comparison `err == os.ErrNotExist` is false for it), while `registry.OpenKey`
returns the errno value `registry.ErrNotExist` itself for a missing key (so
`err == registry.ErrNotExist` does hold there). -/
inductive GoErr where
  | osErrNotExistSentinel : GoErr
  | pathErrNotExist : GoErr
  | pathErrPermission : GoErr
  | regErrNotExist : GoErr
  | wrapped : String → GoErr → GoErr
  | errorf : String → GoErr
  deriving DecidableEq, Repr

/-- The error values `os.Open` can actually return: `*PathError` values, never
the bare sentinel `os.ErrNotExist`. -/
def RealOpenErr (e : GoErr) : Prop :=
  e = GoErr.pathErrNotExist ∨ e = GoErr.pathErrPermission

def CAP2020_SOFTWARE_CURRENT : String := "13.00.13037"

/-- The expected network source path compared (case-insensitively) against
`LastDiscLocation` in the V1 `GetCatalogStatus` (file line 66). -/
def NETWORK_SOURCE_PATH : String := "\\\\10.0.9.29\\2020catalogbeta\\ClientSetup\\"

/-- The expected `UninstallString` registry value (file lines 91 and 455). -/
def UNINSTALL_STRING_EXPECTED : String :=
  "C:\\Program Files (x86)\\2020\\DSA\\dsa.exe /removeall /rootpath \"C:\\ProgramData\\2020\\DSA\""

/-- Directory removed by `CleanCatalog` (file line 75). -/
def DSA_DATA_DIR : String := "C:\\ProgramData\\2020\\DSA"

/-- Path of the persisted state-cookie file opened by `GetCatalogStatus`
(file lines 42, 255, 413). -/
def STATE_COOKIE_PATH : String := "C:\\ProgramData\\2020\\DSA\\2020Catalogs-StateCookie.xml"

/-- One `GranulePick` element of the state cookie (the `XMLName` field of the
Go struct is XML-plumbing and carries no data). -/
structure DSACatalogGranulePick where
  PlatformType : String
  MfgCode : String
  SelectionState : String
  deriving DecidableEq, Repr

/-- Decoded state-cookie content.  The V3 variant of this struct omits
`LastDiscLocation`; its `GetCatalogStatus` never reads that field, so one
structure serves both embeddings. -/
structure DSACatalogState where
  UsingNetwork : Bool
  GranulePicks : List DSACatalogGranulePick
  LastDiscLocation : String
  deriving DecidableEq, Repr

/-- Unicode simple-case-fold orbit of an ASCII character, as a list of code
points.  Per the Go unicode caseOrbit table, the only non-ASCII code points
sharing a fold orbit with an ASCII character are U+017F LATIN SMALL LETTER
LONG S (in the orbit of s and S) and U+212A KELVIN SIGN (in the orbit of k
and K); every other ASCII letter folds exactly with its other-case
counterpart, and an ASCII non-letter folds only with itself. -/
def asciiFoldOrbit (c : Char) : List Char :=
  if c = 'k' ∨ c = 'K' then ['k', 'K', '\u212A']
  else if c = 's' ∨ c = 'S' then ['s', 'S', '\u017F']
  else if 65 ≤ c.toNat ∧ c.toNat ≤ 90 then [c, Char.ofNat (c.toNat + 32)]
  else if 97 ≤ c.toNat ∧ c.toNat ≤ 122 then [Char.ofNat (c.toNat - 32), c]
  else [c]

/-- Model of `strings.EqualFold v lit` at the two call sites of this
program, where `lit` is a fixed ASCII literal (file lines 66 and 91):
EqualFold compares rune by rune under Unicode simple case folding, so
against an ASCII literal it holds exactly when the strings have the same
number of runes and each rune of `v` lies in the simple-fold orbit of the
corresponding rune of `lit`. -/
def eqFold (v lit : String) : Bool :=
  v.data.length == lit.data.length &&
    (List.zip v.data lit.data).all fun p => (asciiFoldOrbit p.2).contains p.1

/-- Observable outcome of `os.Open` on the state-cookie path followed, on
success, by `xml.Decode`; the external filesystem determines this value. -/
inductive CookieRead where
  | openFail : GoErr → CookieRead
  | decodeFail : GoErr → CookieRead
  | parsed : DSACatalogState → CookieRead
  deriving DecidableEq, Repr

/-- Observable state of a registry key: absent (`OpenKey` fails with
`registry.ErrNotExist`), failing to open for another reason, or present with
the outcome of `GetStringValue` on the value the program reads. -/
inductive RegKeyState where
  | absent : RegKeyState
  | openError : GoErr → RegKeyState
  | present : Except GoErr String → RegKeyState

def CATALOG_STATE_MISSNG : Nat := 0
def CATALOG_STATE_LOCAL : Nat := 1
def CATALOG_STATE_NETWORK : Nat := 2
def CATALOG_STATE_INVALID : Nat := 3

/-- The loop of file lines 58-64 / 431-437: is some pick the mandatory Demo
baseline granule, selected? -/
def hasSelectedDemoPick (picks : List DSACatalogGranulePick) : Bool :=
  picks.any fun p =>
    p.MfgCode == "DMO" && p.PlatformType == "CAP" && p.SelectionState == "Selected"

/-- Function `GetSoftwareStatus`, file lines 103-118 (identical at 467-482): returns
("is installed", "is current", error). -/
def GetSoftwareStatus : RegKeyState → Bool × Bool × Option GoErr
  | RegKeyState.absent => (false, false, none)
  | RegKeyState.openError e =>
      (false, false, some (GoErr.wrapped "Cannot open registry key for software version" e))
  | RegKeyState.present (Except.error e) =>
      (false, false, some (GoErr.wrapped "Cannot read value DisplayVersion" e))
  | RegKeyState.present (Except.ok v) =>
      (true, v == CAP2020_SOFTWARE_CURRENT, none)

/-- V1 `GetCatalogStatus`, file lines 41-72: ANY open failure yields
`CATALOG_STATE_MISSNG` with nil error (lines 43-46); a decode failure yields
`CATALOG_STATE_INVALID` with a wrapped error; a selected Demo pick yields
LOCAL; otherwise the last-disc location decides NETWORK vs INVALID. -/
def V1.GetCatalogStatus : CookieRead → Nat × Option GoErr
  | CookieRead.openFail _ => (CATALOG_STATE_MISSNG, none)
  | CookieRead.decodeFail e =>
      (CATALOG_STATE_INVALID, some (GoErr.wrapped "Cannot decode DSA state XML file" e))
  | CookieRead.parsed st =>
      if hasSelectedDemoPick st.GranulePicks then (CATALOG_STATE_LOCAL, none)
      else if !(eqFold st.LastDiscLocation NETWORK_SOURCE_PATH) then
        (CATALOG_STATE_INVALID, none)
      else (CATALOG_STATE_NETWORK, none)

/-- V3 `GetCatalogStatus`, file lines 412-440: returns ("installed",
"on network", error).  The open-failure branch compares the returned error to
the sentinel `os.ErrNotExist` (line 414). -/
def V3.GetCatalogStatus : CookieRead → Bool × Bool × Option GoErr
  | CookieRead.openFail e =>
      if e = GoErr.osErrNotExistSentinel then (false, false, none)
      else (false, false, some (GoErr.wrapped "Cannot open DSA state XML file" e))
  | CookieRead.decodeFail e =>
      (false, false, some (GoErr.wrapped "Cannot decode DSA state XML file" e))
  | CookieRead.parsed st =>
      if hasSelectedDemoPick st.GranulePicks then (true, st.UsingNetwork, none)
      else (false, st.UsingNetwork, none)

/-- External commands the program can launch. -/
inductive ExtCmd where
  | execDsaRemoveAll
  | removeAllDsaDir
  | execInstallNetworkCatalog
  | execInstallSoftware
  | execUninstallSoftware
  | netUseDelete
  | netUseMap
  | execSetupA
  deriving DecidableEq, Repr

/-- V1 `UninstallCatalog`, file lines 78-100: the gate at line 91 uses
`strings.EqualFold`.  Returns the Go error result paired with the external
commands launched. -/
def V1.UninstallCatalog (reg : RegKeyState) (execResult : Except GoErr String) :
    Option GoErr × List ExtCmd :=
  match reg with
  | RegKeyState.absent =>
      (some (GoErr.wrapped "Cannot open registry key for uninstall" GoErr.regErrNotExist), [])
  | RegKeyState.openError e =>
      (some (GoErr.wrapped "Cannot open registry key for uninstall" e), [])
  | RegKeyState.present (Except.error e) =>
      (some (GoErr.wrapped "Cannot read value UninstallString" e), [])
  | RegKeyState.present (Except.ok v) =>
      if !(eqFold v UNINSTALL_STRING_EXPECTED) then
        (some (GoErr.errorf ("UninstallString had an unexpected value of " ++ v)), [])
      else
        match execResult with
        | Except.error e =>
            (some (GoErr.wrapped "Uninstall command output" e), [ExtCmd.execDsaRemoveAll])
        | Except.ok _ => (none, [ExtCmd.execDsaRemoveAll])

/-- V3 `UninstallCatalog`, file lines 442-464: the gate at line 455 is exact
string inequality. -/
def V3.UninstallCatalog (reg : RegKeyState) (execResult : Except GoErr String) :
    Option GoErr × List ExtCmd :=
  match reg with
  | RegKeyState.absent =>
      (some (GoErr.wrapped "Cannot open registry key for uninstall" GoErr.regErrNotExist), [])
  | RegKeyState.openError e =>
      (some (GoErr.wrapped "Cannot open registry key for uninstall" e), [])
  | RegKeyState.present (Except.error e) =>
      (some (GoErr.wrapped "Cannot read value UninstallString" e), [])
  | RegKeyState.present (Except.ok v) =>
      if !(v == UNINSTALL_STRING_EXPECTED) then
        (some (GoErr.errorf ("UninstallString had an unexpected value of " ++ v)), [])
      else
        match execResult with
        | Except.error e =>
            (some (GoErr.wrapped "Uninstall command output" e), [ExtCmd.execDsaRemoveAll])
        | Except.ok _ => (none, [ExtCmd.execDsaRemoveAll])

/-- V1 `InstallNetworkCatalog`, file lines 120-127: one exec of the network
setup executable. -/
def V1.InstallNetworkCatalog (res : Except GoErr String) : Option GoErr × List ExtCmd :=
  match res with
  | Except.error e => (some (GoErr.wrapped "Setup command output" e), [ExtCmd.execInstallNetworkCatalog])
  | Except.ok _ => (none, [ExtCmd.execInstallNetworkCatalog])

/-- V3 `InstallNetworkCatalog`, file lines 484-498: pre-emptive `net use
/delete` whose failure is ignored, then the mapping (fatal on failure), then
the setup executable on the mapped drive. -/
def V3.InstallNetworkCatalog (mapRes setupRes : Except GoErr String) :
    Option GoErr × List ExtCmd :=
  match mapRes with
  | Except.error e =>
      (some (GoErr.wrapped "NET USE command output" e), [ExtCmd.netUseDelete, ExtCmd.netUseMap])
  | Except.ok _ =>
      match setupRes with
      | Except.error e =>
          (some (GoErr.wrapped "Setup command output" e),
           [ExtCmd.netUseDelete, ExtCmd.netUseMap, ExtCmd.execSetupA])
      | Except.ok _ => (none, [ExtCmd.netUseDelete, ExtCmd.netUseMap, ExtCmd.execSetupA])

/-- Function `InstallSoftware`, file lines 129-136 / 500-507. -/
def InstallSoftware (res : Except GoErr String) : Option GoErr × List ExtCmd :=
  match res with
  | Except.error e => (some (GoErr.wrapped "Install command output" e), [ExtCmd.execInstallSoftware])
  | Except.ok _ => (none, [ExtCmd.execInstallSoftware])

/-- Function `UninstallSoftware`, file lines 138-145 / 509-516 (msiexec removal). -/
def UninstallSoftware (res : Except GoErr String) : Option GoErr × List ExtCmd :=
  match res with
  | Except.error e => (some (GoErr.wrapped "Uninstall command output" e), [ExtCmd.execUninstallSoftware])
  | Except.ok _ => (none, [ExtCmd.execUninstallSoftware])

/-- Observable events of a run, in order: the two kinds of state reads and
the external commands launched. -/
inductive Event where
  | readSoftwareStatus
  | readCatalogStatus
  | act : ExtCmd → Event
  deriving DecidableEq, Repr

/-- A terminal exit: the `Exit*` helpers print `LABEL: msg`, pause, and call
`os.Exit code`; label, code and message are the observable data. -/
structure ExitEvent where
  label : String
  code : Nat
  msg : String
  deriving DecidableEq, Repr

/-- Function `ExitWithSuccess`, file lines 147-151: prints `SUCCESS: m`, exits 0. -/
def ExitWithSuccess (m : String) : ExitEvent := ⟨"SUCCESS", 0, m⟩

/-- Function `ExitWithError`, file lines 153-157: prints `ERROR: m (err)`, exits 1. -/
def ExitWithError (m : String) : ExitEvent := ⟨"ERROR", 1, m⟩

/-- Function `ExitWithoutSuccess`, file lines 159-163: prints `UNSUCCESSFUL: m`,
exits 2. -/
def ExitWithoutSuccess (m : String) : ExitEvent := ⟨"UNSUCCESSFUL", 2, m⟩

/-- A completed run: the events before termination, and the terminal exit
(every path of `main` ends in one of the three `Exit*` calls, which do not
return). -/
structure RunResult where
  events : List Event
  exit : ExitEvent
  deriving DecidableEq, Repr

/-- Environment of external outcomes for one V1 run, in the order `main`
would consume them. -/
structure Env1 where
  software : RegKeyState
  installSoftwareRes : Except GoErr String
  uninstallSoftwareRes : Except GoErr String
  catalog1 : CookieRead
  uninstallReg : RegKeyState
  uninstallExec : Except GoErr String
  installCatalogRes : Except GoErr String
  catalog2 : CookieRead

/-- Install-and-recheck tail of V1 `main`, file lines 213-223. -/
def V1.installPhase (env : Env1) (pre : List Event) : RunResult :=
  match V1.InstallNetworkCatalog env.installCatalogRes with
  | (some _, acts) =>
      ⟨pre ++ acts.map Event.act, ExitWithError "Failed to install the network catalog."⟩
  | (none, acts) =>
      match V1.GetCatalogStatus env.catalog2 with
      | (st, none) =>
          if st == CATALOG_STATE_NETWORK then
            ⟨pre ++ acts.map Event.act ++ [Event.readCatalogStatus],
             ExitWithSuccess "Looks good. Network catalog is now installed."⟩
          else
            ⟨pre ++ acts.map Event.act ++ [Event.readCatalogStatus],
             ExitWithoutSuccess "Finish installing the catalog by using the wizard. You can close this window."⟩
      | (_, some _) =>
          ⟨pre ++ acts.map Event.act ++ [Event.readCatalogStatus],
           ExitWithoutSuccess "Finish installing the catalog by using the wizard. You can close this window."⟩

/-- V1 `main`, file lines 165-224.  In the LOCAL branch a successful
`UninstallCatalog` is followed by `CleanCatalog` (an `os.RemoveAll` of the
DSA data directory, whose error is ignored) and then directly by the install
phase. -/
def V1.main (env : Env1) : RunResult :=
  match GetSoftwareStatus env.software with
  | (_, _, some _) =>
      ⟨[Event.readSoftwareStatus], ExitWithError "Unable to check software status."⟩
  | (softInstalled, softCurrent, none) =>
      if !softInstalled then
        match InstallSoftware env.installSoftwareRes with
        | (some _, acts) =>
            ⟨Event.readSoftwareStatus :: acts.map Event.act,
             ExitWithError "Unable to install the 2020 software. Restart your computer and try again manually."⟩
        | (none, acts) =>
            ⟨Event.readSoftwareStatus :: acts.map Event.act,
             ExitWithoutSuccess "Complete the install process manually and run this again afterward."⟩
      else if !softCurrent then
        match UninstallSoftware env.uninstallSoftwareRes with
        | (some _, acts) =>
            ⟨Event.readSoftwareStatus :: acts.map Event.act,
             ExitWithError "Unable to uninstall the 2020 software. Restart your computer and try again manually."⟩
        | (none, acts) =>
            ⟨Event.readSoftwareStatus :: acts.map Event.act,
             ExitWithoutSuccess "Software uninstall will require a reboot. After reboot, run again to update software."⟩
      else
        match V1.GetCatalogStatus env.catalog1 with
        | (_, some _) =>
            ⟨[Event.readSoftwareStatus, Event.readCatalogStatus],
             ExitWithError "Unable to check for Network Deployment."⟩
        | (catState, none) =>
            if catState == CATALOG_STATE_NETWORK then
              ⟨[Event.readSoftwareStatus, Event.readCatalogStatus],
               ExitWithSuccess "You are using the 2020 Network Deployment. Nice."⟩
            else if catState == CATALOG_STATE_LOCAL then
              match V1.UninstallCatalog env.uninstallReg env.uninstallExec with
              | (some _, acts) =>
                  ⟨[Event.readSoftwareStatus, Event.readCatalogStatus] ++ acts.map Event.act,
                   ExitWithError "Can\x27t run the uninstaller for the catalog. Try running it yourself."⟩
              | (none, acts) =>
                  V1.installPhase env
                    ([Event.readSoftwareStatus, Event.readCatalogStatus] ++ acts.map Event.act
                      ++ [Event.act ExtCmd.removeAllDsaDir])
            else
              V1.installPhase env [Event.readSoftwareStatus, Event.readCatalogStatus]

/-- Environment of external outcomes for one V3 run. -/
structure Env3 where
  software : RegKeyState
  installSoftwareRes : Except GoErr String
  uninstallSoftwareRes : Except GoErr String
  catalog1 : CookieRead
  uninstallReg : RegKeyState
  uninstallExec : Except GoErr String
  netUseMapRes : Except GoErr String
  setupRes : Except GoErr String
  catalog2 : CookieRead
  catalog3 : CookieRead

/-- Install-and-recheck tail of V3 `main`, file lines 587-597. -/
def V3.installPhase (env : Env3) (pre : List Event) : RunResult :=
  match V3.InstallNetworkCatalog env.netUseMapRes env.setupRes with
  | (some _, acts) =>
      ⟨pre ++ acts.map Event.act, ExitWithError "Failed to install the network catalog."⟩
  | (none, acts) =>
      match V3.GetCatalogStatus env.catalog3 with
      | (i, n, none) =>
          if i && n then
            ⟨pre ++ acts.map Event.act ++ [Event.readCatalogStatus],
             ExitWithSuccess "Looks good. Network catalog is installed."⟩
          else
            ⟨pre ++ acts.map Event.act ++ [Event.readCatalogStatus],
             ExitWithoutSuccess "Finish installing the catalog by using the wizard. You can close this window."⟩
      | (_, _, some _) =>
          ⟨pre ++ acts.map Event.act ++ [Event.readCatalogStatus],
           ExitWithoutSuccess "Finish installing the catalog by using the wizard. You can close this window."⟩

/-- V3 `main`, file lines 536-598.  In the local-catalog branch a successful
`UninstallCatalog` is followed by one re-read of the catalog status; an error
there, or a still-local result, terminates unsuccessfully, and otherwise the
run falls through to the install phase. -/
def V3.main (env : Env3) : RunResult :=
  match GetSoftwareStatus env.software with
  | (_, _, some _) =>
      ⟨[Event.readSoftwareStatus], ExitWithError "Unable to check software status."⟩
  | (softInstalled, softCurrent, none) =>
      if !softInstalled then
        match InstallSoftware env.installSoftwareRes with
        | (some _, acts) =>
            ⟨Event.readSoftwareStatus :: acts.map Event.act,
             ExitWithError "Unable to install the 2020 software. Restart your computer and try again manually."⟩
        | (none, acts) =>
            ⟨Event.readSoftwareStatus :: acts.map Event.act,
             ExitWithoutSuccess "Complete the install process manually and run this again afterward."⟩
      else if !softCurrent then
        match UninstallSoftware env.uninstallSoftwareRes with
        | (some _, acts) =>
            ⟨Event.readSoftwareStatus :: acts.map Event.act,
             ExitWithError "Unable to uninstall the 2020 software. Restart your computer and try again manually."⟩
        | (none, acts) =>
            ⟨Event.readSoftwareStatus :: acts.map Event.act,
             ExitWithoutSuccess "Software uninstall will require a reboot. After reboot, run again to update software."⟩
      else
        match V3.GetCatalogStatus env.catalog1 with
        | (_, _, some _) =>
            ⟨[Event.readSoftwareStatus, Event.readCatalogStatus],
             ExitWithError "Unable to check for Network Deployment."⟩
        | (catInstalled, catOnNetwork, none) =>
            if catOnNetwork then
              ⟨[Event.readSoftwareStatus, Event.readCatalogStatus],
               ExitWithSuccess "You are using the 2020 Network Deployment. Nice."⟩
            else if catInstalled && !catOnNetwork then
              match V3.UninstallCatalog env.uninstallReg env.uninstallExec with
              | (some _, acts) =>
                  ⟨[Event.readSoftwareStatus, Event.readCatalogStatus] ++ acts.map Event.act,
                   ExitWithError "Can\x27t run the uninstaller for the catalog. Try running it yourself."⟩
              | (none, acts) =>
                  match V3.GetCatalogStatus env.catalog2 with
                  | (_, _, some _) =>
                      ⟨[Event.readSoftwareStatus, Event.readCatalogStatus]
                         ++ acts.map Event.act ++ [Event.readCatalogStatus],
                       ExitWithoutSuccess "Finish uninstalling the local catalog, then run this again. You can close this window."⟩
                  | (i2, n2, none) =>
                      if i2 && !n2 then
                        ⟨[Event.readSoftwareStatus, Event.readCatalogStatus]
                           ++ acts.map Event.act ++ [Event.readCatalogStatus],
                         ExitWithoutSuccess "Finish uninstalling the local catalog, then run this again. You can close this window."⟩
                      else
                        V3.installPhase env
                          ([Event.readSoftwareStatus, Event.readCatalogStatus]
                            ++ acts.map Event.act ++ [Event.readCatalogStatus])
            else
              V3.installPhase env [Event.readSoftwareStatus, Event.readCatalogStatus]

/-- The expected uninstall command with every ASCII letter lower-cased: it
differs from `UNINSTALL_STRING_EXPECTED` in letter case only. -/
def UNINSTALL_STRING_LOWERED : String :=
  "c:\\program files (x86)\\2020\\dsa\\dsa.exe /removeall /rootpath \"c:\\programdata\\2020\\dsa\""

/-- A well-formed cookie whose Demo baseline pick is selected and whose
last-source location is exactly the expected network path. -/
def selectedNetworkCookie : DSACatalogState :=
  ⟨false, [⟨"CAP", "DMO", "Selected"⟩], NETWORK_SOURCE_PATH⟩

/-- C6: `GetSoftwareStatus` maps the product registry key as follows: key
absent yields (installed=false, current=false) with no error; key present
with `DisplayVersion` exactly equal to `13.00.13037` yields (true, true);
key present with any other version string yields (true, false). -/
theorem getSoftwareStatus_version_mapping :
    GetSoftwareStatus RegKeyState.absent = (false, false, none) ∧
    GetSoftwareStatus (RegKeyState.present (Except.ok CAP2020_SOFTWARE_CURRENT))
      = (true, true, none) ∧
    ∀ v : String, v ≠ CAP2020_SOFTWARE_CURRENT →
      GetSoftwareStatus (RegKeyState.present (Except.ok v)) = (true, false, none) := by
  refine ⟨rfl, by decide, fun v hv => ?_⟩
  simp [GetSoftwareStatus, hv]

/-- Witness for C6 at a concrete stale version string. -/
theorem getSoftwareStatus_version_mapping_inst :
    GetSoftwareStatus (RegKeyState.present (Except.ok "1.0")) = (true, false, none) :=
  getSoftwareStatus_version_mapping.2.2 "1.0" (by decide)

/-- C10: for every registry state, `GetSoftwareStatus` reports current only
together with installed, and whenever it returns a non-nil error both
booleans are false. -/
theorem getSoftwareStatus_invariant (reg : RegKeyState) :
    ((GetSoftwareStatus reg).2.1 = true → (GetSoftwareStatus reg).1 = true) ∧
    ((GetSoftwareStatus reg).2.2.isSome = true →
      (GetSoftwareStatus reg).1 = false ∧ (GetSoftwareStatus reg).2.1 = false) := by
  rcases reg with _ | e | exv
  · simp [GetSoftwareStatus]
  · simp [GetSoftwareStatus]
  · rcases exv with e | v <;> simp [GetSoftwareStatus]

/-- Witness for C10 at the current-version registry state. -/
theorem getSoftwareStatus_invariant_inst :
    (GetSoftwareStatus (RegKeyState.present (Except.ok CAP2020_SOFTWARE_CURRENT))).1 = true :=
  (getSoftwareStatus_invariant (RegKeyState.present (Except.ok CAP2020_SOFTWARE_CURRENT))).1
    (by decide)

/-- C7: a state-cookie file that exists but fails to decode makes
`GetCatalogStatus` return a non-nil error — classified
`CATALOG_STATE_INVALID` in the variant whose enumeration has that value —
and never the silent Missing state: V1 reports INVALID (distinct from
MISSNG) with an error, and V3 returns an error rather than its silent
not-installed result. -/
theorem getCatalogStatus_decode_failure_invalid (e : GoErr) :
    V1.GetCatalogStatus (CookieRead.decodeFail e)
      = (CATALOG_STATE_INVALID,
         some (GoErr.wrapped "Cannot decode DSA state XML file" e)) ∧
    CATALOG_STATE_INVALID ≠ CATALOG_STATE_MISSNG ∧
    (V3.GetCatalogStatus (CookieRead.decodeFail e)).2.2
      = some (GoErr.wrapped "Cannot decode DSA state XML file" e) :=
  ⟨rfl, by decide, rfl⟩

/-- C3: how the code actually handles open failures of the state-cookie
file.  V1 `GetCatalogStatus` maps EVERY open failure — a permission error
included — to the Missing state with nil error, and V3 compares the open
error against the sentinel `os.ErrNotExist`, which is never the `*PathError`
value `os.Open` actually returns for a missing file, so even a genuinely
absent file takes the hard-error path there instead of the Missing state. -/
theorem getCatalogStatus_open_failure_evidence :
    V1.GetCatalogStatus (CookieRead.openFail GoErr.pathErrPermission)
      = (CATALOG_STATE_MISSNG, none) ∧
    RealOpenErr GoErr.pathErrPermission ∧
    RealOpenErr GoErr.pathErrNotExist ∧
    (V3.GetCatalogStatus (CookieRead.openFail GoErr.pathErrNotExist)).2.2.isSome = true :=
  ⟨rfl, Or.inr rfl, Or.inl rfl, rfl⟩

/-- C1 fails on the code: V1 `UninstallCatalog` compares the registry value
with `strings.EqualFold`, so a value differing from the expected literal
only in letter case passes the gate and the uninstaller process is launched
with no error, contradicting byte-for-byte refusal. -/
theorem uninstallCatalog_launches_on_case_variant :
    UNINSTALL_STRING_LOWERED ≠ UNINSTALL_STRING_EXPECTED ∧
    V1.UninstallCatalog (RegKeyState.present (Except.ok UNINSTALL_STRING_LOWERED))
        (Except.ok "")
      = (none, [ExtCmd.execDsaRemoveAll]) :=
  ⟨by decide, by decide⟩

/-- C1 amended: V3 `UninstallCatalog` launches the uninstaller exactly when
the read `UninstallString` equals the expected literal byte for byte, while
V1 compares with `strings.EqualFold` and so launches exactly when the value
is equal under Unicode simple case folding; in both variants a value failing
the respective comparison yields an error and zero launched processes. -/
theorem uninstallCatalog_gate_characterization
    (reg : RegKeyState) (ex : Except GoErr String) :
    ((V3.UninstallCatalog reg ex).2 ≠ [] ↔
      ∃ v, reg = RegKeyState.present (Except.ok v) ∧ v = UNINSTALL_STRING_EXPECTED) ∧
    ((V1.UninstallCatalog reg ex).2 ≠ [] ↔
      ∃ v, reg = RegKeyState.present (Except.ok v) ∧
        eqFold v UNINSTALL_STRING_EXPECTED = true) ∧
    (∀ v, reg = RegKeyState.present (Except.ok v) → v ≠ UNINSTALL_STRING_EXPECTED →
      (V3.UninstallCatalog reg ex).1.isSome = true ∧ (V3.UninstallCatalog reg ex).2 = []) ∧
    (∀ v, reg = RegKeyState.present (Except.ok v) →
      eqFold v UNINSTALL_STRING_EXPECTED = false →
      (V1.UninstallCatalog reg ex).1.isSome = true ∧ (V1.UninstallCatalog reg ex).2 = []) := by
  rcases reg with _ | e | exv
  · simp [V3.UninstallCatalog, V1.UninstallCatalog]
  · simp [V3.UninstallCatalog, V1.UninstallCatalog]
  · rcases exv with e | v
    · simp [V3.UninstallCatalog, V1.UninstallCatalog]
    · refine ⟨?_, ?_, ?_, ?_⟩
      · by_cases h : v = UNINSTALL_STRING_EXPECTED <;>
          rcases ex with e | s <;> simp [V3.UninstallCatalog, h]
      · by_cases h : eqFold v UNINSTALL_STRING_EXPECTED = true <;>
          rcases ex with e | s <;> simp [V1.UninstallCatalog, h]
      · rintro w hw hne
        injection hw with hw'
        injection hw' with hw''
        subst hw''
        rcases ex with e | s <;> simp [V3.UninstallCatalog, hne]
      · rintro w hw hne
        injection hw with hw'
        injection hw' with hw''
        subst hw''
        rcases ex with e | s <;> simp [V1.UninstallCatalog, hne]

/-- The expected uninstall command with the s of Files replaced by U+017F
LATIN SMALL LETTER LONG S: EqualFold-equal to the literal under Unicode
simple case folding, but not byte-equal. -/
def UNINSTALL_STRING_LONG_S : String :=
  "C:\\Program File\u017F (x86)\\2020\\DSA\\dsa.exe /removeall /rootpath \"C:\\ProgramData\\2020\\DSA\""

/-- Witness for the amended C1: a concrete mismatching value is refused with
an error and zero launched processes in both variants, and the non-ASCII
fold mate of the literal (long s for s) does pass the V1 gate and launch,
as the real `strings.EqualFold` accepts it. -/
theorem uninstallCatalog_gate_characterization_inst :
    ((V3.UninstallCatalog (RegKeyState.present (Except.ok "x")) (Except.ok "")).1.isSome = true ∧
      (V3.UninstallCatalog (RegKeyState.present (Except.ok "x")) (Except.ok "")).2 = []) ∧
    ((V1.UninstallCatalog (RegKeyState.present (Except.ok "x")) (Except.ok "")).1.isSome = true ∧
      (V1.UninstallCatalog (RegKeyState.present (Except.ok "x")) (Except.ok "")).2 = []) ∧
    (V1.UninstallCatalog (RegKeyState.present (Except.ok UNINSTALL_STRING_LONG_S))
        (Except.ok "")).2 ≠ [] :=
  ⟨(uninstallCatalog_gate_characterization (RegKeyState.present (Except.ok "x"))
      (Except.ok "")).2.2.1 "x" rfl (by decide),
   (uninstallCatalog_gate_characterization (RegKeyState.present (Except.ok "x"))
      (Except.ok "")).2.2.2 "x" rfl (by decide),
   (uninstallCatalog_gate_characterization
      (RegKeyState.present (Except.ok UNINSTALL_STRING_LONG_S)) (Except.ok "")).2.1.mpr
     ⟨UNINSTALL_STRING_LONG_S, rfl, by decide⟩⟩

/-- C2 fails on the code: a well-formed cookie with the (CAP, DMO) pick
Selected and the last-source location exactly equal to the expected network
path is classified LOCAL by V1 `GetCatalogStatus`, not NETWORK, because the
selected-pick check precedes the path comparison. -/
theorem getCatalogStatus_selected_pick_overrides_path :
    V1.GetCatalogStatus (CookieRead.parsed selectedNetworkCookie)
      = (CATALOG_STATE_LOCAL, none) ∧
    CATALOG_STATE_LOCAL ≠ CATALOG_STATE_NETWORK :=
  ⟨by decide, by decide⟩

/-- C2 amended: whenever the (CAP, DMO) pick is Selected, V1 classification
reports the Local state regardless of the last-source location; the Network
state is reported exactly for cookies with no selected baseline pick whose
last-source location is EqualFold-equal (Unicode simple case folding) to the
expected network path. -/
theorem getCatalogStatus_v1_classification (st : DSACatalogState) :
    (hasSelectedDemoPick st.GranulePicks = true →
      V1.GetCatalogStatus (CookieRead.parsed st) = (CATALOG_STATE_LOCAL, none)) ∧
    (hasSelectedDemoPick st.GranulePicks = false →
      (V1.GetCatalogStatus (CookieRead.parsed st) = (CATALOG_STATE_NETWORK, none) ↔
        eqFold st.LastDiscLocation NETWORK_SOURCE_PATH = true)) := by
  constructor
  · intro h
    simp [V1.GetCatalogStatus, h]
  · intro h
    by_cases hf : eqFold st.LastDiscLocation NETWORK_SOURCE_PATH = true
    · simp [V1.GetCatalogStatus, h, hf]
    · simp [V1.GetCatalogStatus, h, hf, CATALOG_STATE_NETWORK, CATALOG_STATE_INVALID]

/-- A cookie with no picks whose last-source location is the expected
network path with the S of ClientSetup replaced by U+017F LATIN SMALL
LETTER LONG S: EqualFold-equal to the path but not byte-equal. -/
def longSNetworkCookie : DSACatalogState :=
  ⟨true, [], "\\\\10.0.9.29\\2020catalogbeta\\Client\u017Fetup\\"⟩

/-- Witness for the amended C2, at a concrete cookie with a selected pick
and at a concrete pick-free cookie whose last-source location matches the
network path only up to Unicode simple case folding (long s for S), which
the real `strings.EqualFold` comparison accepts as Network. -/
theorem getCatalogStatus_v1_classification_inst :
    V1.GetCatalogStatus (CookieRead.parsed selectedNetworkCookie)
      = (CATALOG_STATE_LOCAL, none) ∧
    V1.GetCatalogStatus (CookieRead.parsed longSNetworkCookie)
      = (CATALOG_STATE_NETWORK, none) :=
  ⟨(getCatalogStatus_v1_classification selectedNetworkCookie).1 (by decide),
   ((getCatalogStatus_v1_classification longSNetworkCookie).2 (by decide)).mpr (by decide)⟩

/-- The actions launched by `InstallSoftware` are always the single install
exec, whatever its outcome. -/
lemma installSoftware_acts (res : Except GoErr String) :
    (InstallSoftware res).2 = [ExtCmd.execInstallSoftware] := by
  rcases res with e | s <;> rfl

lemma uninstallSoftware_acts (res : Except GoErr String) :
    (UninstallSoftware res).2 = [ExtCmd.execUninstallSoftware] := by
  rcases res with e | s <;> rfl

lemma v1_installNetworkCatalog_acts (res : Except GoErr String) :
    (V1.InstallNetworkCatalog res).2 = [ExtCmd.execInstallNetworkCatalog] := by
  rcases res with e | s <;> rfl

/-- The actions launched by V3 `InstallNetworkCatalog` always begin with the
drive unmap and map commands. -/
lemma v3_installNetworkCatalog_acts (mapRes setupRes : Except GoErr String) :
    (V3.InstallNetworkCatalog mapRes setupRes).2 = [ExtCmd.netUseDelete, ExtCmd.netUseMap] ∨
    (V3.InstallNetworkCatalog mapRes setupRes).2
      = [ExtCmd.netUseDelete, ExtCmd.netUseMap, ExtCmd.execSetupA] := by
  rcases mapRes with e | s
  · exact Or.inl rfl
  · rcases setupRes with e | s2
    · exact Or.inr rfl
    · exact Or.inr rfl

/-- V1 `UninstallCatalog` either launches nothing or launches exactly the
dsa removal exec. -/
lemma v1_uninstallCatalog_acts (reg : RegKeyState) (ex : Except GoErr String) :
    (V1.UninstallCatalog reg ex).2 = [] ∨
    (V1.UninstallCatalog reg ex).2 = [ExtCmd.execDsaRemoveAll] := by
  rcases reg with _ | e | exv
  · exact Or.inl rfl
  · exact Or.inl rfl
  · rcases exv with e | v
    · exact Or.inl rfl
    · unfold V1.UninstallCatalog
      by_cases h : eqFold v UNINSTALL_STRING_EXPECTED = true
      · rcases ex with e | s <;> simp [h]
      · simp [eq_false_of_ne_true h]

/-- A successful V1 `UninstallCatalog` launched exactly the dsa removal. -/
lemma v1_uninstallCatalog_ok_acts (reg : RegKeyState) (ex : Except GoErr String)
    (h : (V1.UninstallCatalog reg ex).1 = none) :
    (V1.UninstallCatalog reg ex).2 = [ExtCmd.execDsaRemoveAll] := by
  rcases reg with _ | e | exv
  · exact absurd h (by simp [V1.UninstallCatalog])
  · exact absurd h (by simp [V1.UninstallCatalog])
  · rcases exv with e | v
    · exact absurd h (by simp [V1.UninstallCatalog])
    · unfold V1.UninstallCatalog at h ⊢
      by_cases hf : eqFold v UNINSTALL_STRING_EXPECTED = true
      · rcases ex with e | s <;> simp [hf] at h ⊢
      · simp [eq_false_of_ne_true hf] at h

/-- A successful V3 `UninstallCatalog` launched exactly the dsa removal. -/
lemma v3_uninstallCatalog_ok_acts (reg : RegKeyState) (ex : Except GoErr String)
    (h : (V3.UninstallCatalog reg ex).1 = none) :
    (V3.UninstallCatalog reg ex).2 = [ExtCmd.execDsaRemoveAll] := by
  rcases reg with _ | e | exv
  · exact absurd h (by simp [V3.UninstallCatalog])
  · exact absurd h (by simp [V3.UninstallCatalog])
  · rcases exv with e | v
    · exact absurd h (by simp [V3.UninstallCatalog])
    · unfold V3.UninstallCatalog at h ⊢
      by_cases hf : v = UNINSTALL_STRING_EXPECTED
      · rcases ex with e | s <;> simp [hf] at h ⊢
      · simp [hf] at h

/-- An exit event produced by one of the three reporters of the program. -/
def exitCategoryOK (e : ExitEvent) : Prop :=
  (e.code = 0 ∧ e.label = "SUCCESS") ∨ (e.code = 1 ∧ e.label = "ERROR") ∨
    (e.code = 2 ∧ e.label = "UNSUCCESSFUL")

lemma exitCategoryOK_success (m : String) : exitCategoryOK (ExitWithSuccess m) :=
  Or.inl ⟨rfl, rfl⟩

lemma exitCategoryOK_error (m : String) : exitCategoryOK (ExitWithError m) :=
  Or.inr (Or.inl ⟨rfl, rfl⟩)

lemma exitCategoryOK_unsuccess (m : String) : exitCategoryOK (ExitWithoutSuccess m) :=
  Or.inr (Or.inr ⟨rfl, rfl⟩)

lemma v1_installPhase_exit_ok (env : Env1) (pre : List Event) :
    exitCategoryOK (V1.installPhase env pre).exit := by
  unfold V1.installPhase
  repeat' split
  all_goals first
    | exact exitCategoryOK_success _
    | exact exitCategoryOK_error _
    | exact exitCategoryOK_unsuccess _

lemma v3_installPhase_exit_ok (env : Env3) (pre : List Event) :
    exitCategoryOK (V3.installPhase env pre).exit := by
  unfold V3.installPhase
  repeat' split
  all_goals first
    | exact exitCategoryOK_success _
    | exact exitCategoryOK_error _
    | exact exitCategoryOK_unsuccess _

/-- C9: every terminal outcome of either driver goes through exactly one of
the three reporters, which print their category label ("SUCCESS", "ERROR",
"UNSUCCESSFUL") together with the message and exit with code 0, 1 and 2
respectively. -/
theorem terminal_outcomes_three_categories (env1 : Env1) (env3 : Env3) :
    exitCategoryOK (V1.main env1).exit ∧ exitCategoryOK (V3.main env3).exit := by
  constructor
  · unfold V1.main
    repeat' split
    all_goals first
      | exact exitCategoryOK_success _
      | exact exitCategoryOK_error _
      | exact exitCategoryOK_unsuccess _
      | exact v1_installPhase_exit_ok _ _
  · unfold V3.main
    repeat' split
    all_goals first
      | exact exitCategoryOK_success _
      | exact exitCategoryOK_error _
      | exact exitCategoryOK_unsuccess _
      | exact v3_installPhase_exit_ok _ _

lemma v3_uninstallCatalog_acts (reg : RegKeyState) (ex : Except GoErr String) :
    (V3.UninstallCatalog reg ex).2 = [] ∨
    (V3.UninstallCatalog reg ex).2 = [ExtCmd.execDsaRemoveAll] := by
  rcases reg with _ | e | exv
  · exact Or.inl rfl
  · exact Or.inl rfl
  · rcases exv with e | v
    · exact Or.inl rfl
    · unfold V3.UninstallCatalog
      by_cases h : (v == UNINSTALL_STRING_EXPECTED) = true
      · rcases ex with e | s <;> simp [h]
      · simp [eq_false_of_ne_true h]

/-- The install-and-recheck tail of V1 `main` always launches the network
install immediately after the events accumulated so far. -/
lemma v1_installPhase_events (env : Env1) (pre : List Event) :
    ∃ s, (V1.installPhase env pre).events
      = pre ++ [Event.act ExtCmd.execInstallNetworkCatalog] ++ s := by
  unfold V1.installPhase
  rcases hI : V1.InstallNetworkCatalog env.installCatalogRes with ⟨oe, acts⟩
  have hd := v1_installNetworkCatalog_acts env.installCatalogRes
  rw [hI] at hd
  subst hd
  rcases oe with _ | e
  · rcases hc : V1.GetCatalogStatus env.catalog2 with ⟨st, oe2⟩
    rcases oe2 with _ | e2
    · by_cases hb : (st == CATALOG_STATE_NETWORK) = true
      · exact ⟨[Event.readCatalogStatus], by simp [hb]⟩
      · exact ⟨[Event.readCatalogStatus], by simp [eq_false_of_ne_true hb]⟩
    · exact ⟨[Event.readCatalogStatus], by simp⟩
  · exact ⟨[], by simp⟩

/-- The install-and-recheck tail of V3 `main` always launches the drive
unmap and map commands immediately after the events accumulated so far. -/
lemma v3_installPhase_events (env : Env3) (pre : List Event) :
    ∃ s, (V3.installPhase env pre).events
      = pre ++ [Event.act ExtCmd.netUseDelete, Event.act ExtCmd.netUseMap] ++ s := by
  unfold V3.installPhase
  rcases hI : V3.InstallNetworkCatalog env.netUseMapRes env.setupRes with ⟨oe, acts⟩
  have hd := v3_installNetworkCatalog_acts env.netUseMapRes env.setupRes
  rw [hI] at hd
  rcases oe with _ | e
  · rcases hc : V3.GetCatalogStatus env.catalog3 with ⟨i, n, oe3⟩
    rcases oe3 with _ | e3
    · by_cases hb : (i && n) = true
      · rcases hd with hd | hd <;> subst hd
        · exact ⟨[Event.readCatalogStatus], by simp [hb]⟩
        · exact ⟨[Event.act ExtCmd.execSetupA, Event.readCatalogStatus], by simp [hb]⟩
      · rcases hd with hd | hd <;> subst hd
        · exact ⟨[Event.readCatalogStatus], by simp [eq_false_of_ne_true hb]⟩
        · exact ⟨[Event.act ExtCmd.execSetupA, Event.readCatalogStatus],
            by simp [eq_false_of_ne_true hb]⟩
    · rcases hd with hd | hd <;> subst hd
      · exact ⟨[Event.readCatalogStatus], by simp⟩
      · exact ⟨[Event.act ExtCmd.execSetupA, Event.readCatalogStatus], by simp⟩
  · rcases hd with hd | hd <;> subst hd
    · exact ⟨[], by simp⟩
    · exact ⟨[ExtCmd.execSetupA].map Event.act, by simp⟩

/-- Membership of the clean-up removal command in a V1 install-phase trace
can only come from the prefix accumulated before the phase. -/
lemma v1_installPhase_mem_removeAll (env : Env1) (pre : List Event)
    (h : Event.act ExtCmd.removeAllDsaDir ∈ (V1.installPhase env pre).events) :
    Event.act ExtCmd.removeAllDsaDir ∈ pre := by
  unfold V1.installPhase at h
  rcases hI : V1.InstallNetworkCatalog env.installCatalogRes with ⟨oe, acts⟩
  have hd := v1_installNetworkCatalog_acts env.installCatalogRes
  rw [hI] at hd h
  subst hd
  rcases oe with _ | e
  · rcases hc : V1.GetCatalogStatus env.catalog2 with ⟨st, oe2⟩
    rw [hc] at h
    rcases oe2 with _ | e2
    · by_cases hb : (st == CATALOG_STATE_NETWORK) = true
      · simpa [hb] using h
      · simpa [eq_false_of_ne_true hb] using h
    · simpa using h
  · simpa using h

/-- Same for the V3 install phase (which never launches the removal). -/
lemma v3_installPhase_mem_removeAll (env : Env3) (pre : List Event)
    (h : Event.act ExtCmd.removeAllDsaDir ∈ (V3.installPhase env pre).events) :
    Event.act ExtCmd.removeAllDsaDir ∈ pre := by
  unfold V3.installPhase at h
  rcases hI : V3.InstallNetworkCatalog env.netUseMapRes env.setupRes with ⟨oe, acts⟩
  have hd := v3_installNetworkCatalog_acts env.netUseMapRes env.setupRes
  rw [hI] at hd h
  rcases oe with _ | e
  · rcases hc : V3.GetCatalogStatus env.catalog3 with ⟨i, n, oe3⟩
    rw [hc] at h
    rcases oe3 with _ | e3
    · by_cases hb : (i && n) = true
      · rcases hd with hd | hd <;> subst hd <;> simpa [hb] using h
      · rcases hd with hd | hd <;> subst hd <;>
          simpa [eq_false_of_ne_true hb] using h
    · rcases hd with hd | hd <;> subst hd <;> simpa using h
  · rcases hd with hd | hd <;> subst hd <;> simpa using h

/-- A cookie with the Demo baseline pick selected and an empty last-source
location: classified locally-installed by both variants. -/
def localPickCookie : DSACatalogState :=
  ⟨false, [⟨"CAP", "DMO", "Selected"⟩], ""⟩

/-- A cookie with no picks and the expected network source location. -/
def networkCookie : DSACatalogState := ⟨true, [], NETWORK_SOURCE_PATH⟩

/-- V1 environment: software current, catalog locally installed, uninstall
value as expected and its exec succeeding, network install succeeding, and a
second classification reporting the network state. -/
def localCatalogEnv : Env1 :=
  ⟨RegKeyState.present (Except.ok CAP2020_SOFTWARE_CURRENT),
   Except.ok "", Except.ok "",
   CookieRead.parsed localPickCookie,
   RegKeyState.present (Except.ok UNINSTALL_STRING_EXPECTED),
   Except.ok "", Except.ok "",
   CookieRead.parsed networkCookie⟩

/-- C4 fails on the code: in the local-catalog branch the V1 driver, after a
successful catalog uninstall, launches `CleanCatalog` — an `os.RemoveAll` of
the DSA data directory, which contains the state-cookie file — so a run does
mutate (delete) the persisted state cookie. -/
theorem main_v1_removes_state_cookie_dir :
    Event.act ExtCmd.removeAllDsaDir ∈ (V1.main localCatalogEnv).events ∧
    STATE_COOKIE_PATH = DSA_DATA_DIR ++ "\\2020Catalogs-StateCookie.xml" :=
  ⟨by decide, by decide⟩

/-- C4 amended: the classification functions launch nothing and the drivers
never touch the state cookie except in one place — the V1 local-catalog
branch, where, exactly when the first catalog classification is LOCAL and
the catalog uninstall returned no error, `CleanCatalog` removes the DSA data
directory; the V3 driver never launches that removal. -/
theorem state_cookie_removal_only_local_branch :
    (∀ env : Env1, Event.act ExtCmd.removeAllDsaDir ∈ (V1.main env).events →
      V1.GetCatalogStatus env.catalog1 = (CATALOG_STATE_LOCAL, none) ∧
      (V1.UninstallCatalog env.uninstallReg env.uninstallExec).1 = none) ∧
    (∀ env : Env3, Event.act ExtCmd.removeAllDsaDir ∉ (V3.main env).events) := by
  constructor
  · intro env h
    unfold V1.main at h
    rcases hS : GetSoftwareStatus env.software with ⟨si, sc, oe⟩
    rw [hS] at h
    rcases oe with _ | e
    · rcases si with _ | _
      · rcases hIs : InstallSoftware env.installSoftwareRes with ⟨o2, a2⟩
        have hd := installSoftware_acts env.installSoftwareRes
        rw [hIs] at h hd
        subst hd
        rcases o2 with _ | e2 <;> simp at h
      · rcases sc with _ | _
        · rcases hUs : UninstallSoftware env.uninstallSoftwareRes with ⟨o2, a2⟩
          have hd := uninstallSoftware_acts env.uninstallSoftwareRes
          rw [hUs] at h hd
          subst hd
          rcases o2 with _ | e2 <;> simp at h
        · rcases hc1 : V1.GetCatalogStatus env.catalog1 with ⟨st, oc⟩
          rw [hc1] at h
          rcases oc with _ | e1
          · by_cases hN : (st == CATALOG_STATE_NETWORK) = true
            · simp [hN] at h
            · by_cases hL : (st == CATALOG_STATE_LOCAL) = true
              · simp only [Bool.not_true, eq_false_of_ne_true hN, hL,
                  Bool.false_eq_true, if_false, if_true] at h
                rcases hU : V1.UninstallCatalog env.uninstallReg env.uninstallExec
                  with ⟨oU, aU⟩
                have hd := v1_uninstallCatalog_acts env.uninstallReg env.uninstallExec
                rw [hU] at h hd
                rcases oU with _ | eU
                · have hst : st = CATALOG_STATE_LOCAL := by
                    simpa using hL
                  subst hst
                  exact ⟨rfl, rfl⟩
                · rcases hd with hd | hd <;> subst hd <;> simp at h
              · simp only [Bool.not_true, eq_false_of_ne_true hN,
                  eq_false_of_ne_true hL, Bool.false_eq_true, if_false] at h
                have := v1_installPhase_mem_removeAll env _ h
                simp at this
          · simp at h
    · simp at h
  · intro env h
    unfold V3.main at h
    rcases hS : GetSoftwareStatus env.software with ⟨si, sc, oe⟩
    rw [hS] at h
    rcases oe with _ | e
    · rcases si with _ | _
      · rcases hIs : InstallSoftware env.installSoftwareRes with ⟨o2, a2⟩
        have hd := installSoftware_acts env.installSoftwareRes
        rw [hIs] at h hd
        subst hd
        rcases o2 with _ | e2 <;> simp at h
      · rcases sc with _ | _
        · rcases hUs : UninstallSoftware env.uninstallSoftwareRes with ⟨o2, a2⟩
          have hd := uninstallSoftware_acts env.uninstallSoftwareRes
          rw [hUs] at h hd
          subst hd
          rcases o2 with _ | e2 <;> simp at h
        · rcases hc1 : V3.GetCatalogStatus env.catalog1 with ⟨ci, cn, oc⟩
          rw [hc1] at h
          rcases oc with _ | e1
          · rcases cn with _ | _
            · rcases ci with _ | _
              · simp only [Bool.false_eq_true, if_false, Bool.and_self] at h
                have := v3_installPhase_mem_removeAll env _ h
                simp at this
              · simp only [Bool.false_eq_true, if_false, Bool.not_false,
                  Bool.and_true, if_true] at h
                rcases hU : V3.UninstallCatalog env.uninstallReg env.uninstallExec
                  with ⟨oU, aU⟩
                have hd := v3_uninstallCatalog_acts env.uninstallReg env.uninstallExec
                rw [hU] at h hd
                rcases oU with _ | eU
                · rcases hc2 : V3.GetCatalogStatus env.catalog2 with ⟨i2, n2, oc2⟩
                  rw [hc2] at h
                  rcases oc2 with _ | e2
                  · by_cases hb : (i2 && !n2) = true
                    · rcases hd with hd | hd <;> subst hd <;> simp [hb] at h
                    · rcases hd with hd | hd <;> subst hd <;>
                        [skip; skip] <;>
                        · simp only [eq_false_of_ne_true hb, Bool.false_eq_true,
                            if_false] at h
                          have := v3_installPhase_mem_removeAll env _ h
                          simp at this
                  · rcases hd with hd | hd <;> subst hd <;> simp at h
                · rcases hd with hd | hd <;> subst hd <;> simp at h
            · simp at h
          · simp at h
    · simp at h

/-- Witness for the amended C4: the local-branch conditions really are
derivable from an actual removal, at the concrete local-catalog run. -/
theorem state_cookie_removal_only_local_branch_inst :
    V1.GetCatalogStatus localCatalogEnv.catalog1 = (CATALOG_STATE_LOCAL, none) ∧
    (V1.UninstallCatalog localCatalogEnv.uninstallReg localCatalogEnv.uninstallExec).1
      = none :=
  state_cookie_removal_only_local_branch.1 localCatalogEnv (by decide)

/-- C5 fails on the code: in a V1 run that classifies the catalog LOCAL and
uninstalls it successfully, the full trace shows the network-catalog install
launched immediately after the clean-up removal, with no catalog
re-classification between the uninstall and the install — the only re-read
happens after the install. -/
theorem main_v1_no_reclassify_between_uninstall_and_install :
    V1.main localCatalogEnv =
      ⟨[Event.readSoftwareStatus, Event.readCatalogStatus,
        Event.act ExtCmd.execDsaRemoveAll, Event.act ExtCmd.removeAllDsaDir,
        Event.act ExtCmd.execInstallNetworkCatalog, Event.readCatalogStatus],
       ExitWithSuccess "Looks good. Network catalog is now installed."⟩ := by
  decide

/-- C5 amended: the V3 driver behaves as the claim states — on a locally
installed catalog it uninstalls, re-classifies exactly once, terminates
unsuccessfully when that re-classification errors or still reports
local-only, and otherwise proceeds to the install-network step — while the
V1 driver, after a successful uninstall, proceeds directly to the
network-catalog install with no intervening re-classification. -/
theorem reclassify_after_uninstall_characterization :
    (∀ env : Env3,
      GetSoftwareStatus env.software = (true, true, none) →
      V3.GetCatalogStatus env.catalog1 = (true, false, none) →
      (V3.UninstallCatalog env.uninstallReg env.uninstallExec).1 = none →
      (((V3.GetCatalogStatus env.catalog2).2.2.isSome = true ∨
          ((V3.GetCatalogStatus env.catalog2).1 = true ∧
           (V3.GetCatalogStatus env.catalog2).2.1 = false)) →
        V3.main env =
          ⟨[Event.readSoftwareStatus, Event.readCatalogStatus,
            Event.act ExtCmd.execDsaRemoveAll, Event.readCatalogStatus],
           ExitWithoutSuccess "Finish uninstalling the local catalog, then run this again. You can close this window."⟩) ∧
      ((V3.GetCatalogStatus env.catalog2).2.2 = none →
        ((V3.GetCatalogStatus env.catalog2).1 = false ∨
         (V3.GetCatalogStatus env.catalog2).2.1 = true) →
        ∃ s, (V3.main env).events
          = [Event.readSoftwareStatus, Event.readCatalogStatus,
             Event.act ExtCmd.execDsaRemoveAll, Event.readCatalogStatus,
             Event.act ExtCmd.netUseDelete, Event.act ExtCmd.netUseMap] ++ s)) ∧
    (∀ env : Env1,
      GetSoftwareStatus env.software = (true, true, none) →
      V1.GetCatalogStatus env.catalog1 = (CATALOG_STATE_LOCAL, none) →
      (V1.UninstallCatalog env.uninstallReg env.uninstallExec).1 = none →
      ∃ s, (V1.main env).events
        = [Event.readSoftwareStatus, Event.readCatalogStatus,
           Event.act ExtCmd.execDsaRemoveAll, Event.act ExtCmd.removeAllDsaDir,
           Event.act ExtCmd.execInstallNetworkCatalog] ++ s) := by
  constructor
  · intro env h1 h2 h3
    have haU := v3_uninstallCatalog_ok_acts env.uninstallReg env.uninstallExec h3
    have hE : V3.UninstallCatalog env.uninstallReg env.uninstallExec
        = (none, [ExtCmd.execDsaRemoveAll]) := by
      rcases hX : V3.UninstallCatalog env.uninstallReg env.uninstallExec with ⟨oU, aU⟩
      rw [hX] at h3 haU
      dsimp only at h3 haU
      rw [h3, haU]
    constructor
    · intro hbad
      rcases hc2 : V3.GetCatalogStatus env.catalog2 with ⟨i2, n2, oc2⟩
      rw [hc2] at hbad
      rcases oc2 with _ | e2
      · dsimp only at hbad
        rcases hbad with hbad | ⟨hi, hn⟩
        · exact absurd hbad (by simp)
        · subst hi; subst hn
          simp [V3.main, h1, h2, hE, hc2]
      · simp [V3.main, h1, h2, hE, hc2]
    · intro hnone hgood
      rcases hc2 : V3.GetCatalogStatus env.catalog2 with ⟨i2, n2, oc2⟩
      rw [hc2] at hnone hgood
      dsimp only at hnone hgood
      subst hnone
      have hbranch : (i2 && !n2) = false := by
        rcases hgood with hg | hg <;> subst hg <;> simp
      have hmain : V3.main env = V3.installPhase env
          [Event.readSoftwareStatus, Event.readCatalogStatus,
           Event.act ExtCmd.execDsaRemoveAll, Event.readCatalogStatus] := by
        simp [V3.main, h1, h2, hE, hc2, hbranch]
      rcases v3_installPhase_events env
        [Event.readSoftwareStatus, Event.readCatalogStatus,
         Event.act ExtCmd.execDsaRemoveAll, Event.readCatalogStatus] with ⟨s, hs⟩
      exact ⟨s, by rw [hmain]; simpa using hs⟩
  · intro env h1 h2 h3
    have haU := v1_uninstallCatalog_ok_acts env.uninstallReg env.uninstallExec h3
    have hE : V1.UninstallCatalog env.uninstallReg env.uninstallExec
        = (none, [ExtCmd.execDsaRemoveAll]) := by
      rcases hX : V1.UninstallCatalog env.uninstallReg env.uninstallExec with ⟨oU, aU⟩
      rw [hX] at h3 haU
      dsimp only at h3 haU
      rw [h3, haU]
    have hmain : V1.main env = V1.installPhase env
        [Event.readSoftwareStatus, Event.readCatalogStatus,
         Event.act ExtCmd.execDsaRemoveAll, Event.act ExtCmd.removeAllDsaDir] := by
      simp [V1.main, h1, h2, hE, CATALOG_STATE_LOCAL, CATALOG_STATE_NETWORK]
    rcases v1_installPhase_events env
      [Event.readSoftwareStatus, Event.readCatalogStatus,
       Event.act ExtCmd.execDsaRemoveAll, Event.act ExtCmd.removeAllDsaDir] with ⟨s, hs⟩
    exact ⟨s, by rw [hmain]; simpa using hs⟩

/-- V3 environment: software current, catalog locally installed, uninstall
gate satisfied and exec succeeding, but the re-classification still reports
a locally installed catalog. -/
def stillLocalEnv : Env3 :=
  ⟨RegKeyState.present (Except.ok CAP2020_SOFTWARE_CURRENT), Except.ok "", Except.ok "",
   CookieRead.parsed localPickCookie,
   RegKeyState.present (Except.ok UNINSTALL_STRING_EXPECTED), Except.ok "",
   Except.ok "", Except.ok "",
   CookieRead.parsed localPickCookie,
   CookieRead.parsed localPickCookie⟩

/-- Witness for the amended C5: the still-local re-classification really
terminates the V3 run unsuccessfully, at a concrete environment. -/
theorem reclassify_after_uninstall_characterization_inst :
    V3.main stillLocalEnv =
      ⟨[Event.readSoftwareStatus, Event.readCatalogStatus,
        Event.act ExtCmd.execDsaRemoveAll, Event.readCatalogStatus],
       ExitWithoutSuccess "Finish uninstalling the local catalog, then run this again. You can close this window."⟩ :=
  (reclassify_after_uninstall_characterization.1 stillLocalEnv (by decide) (by decide)
    (by decide)).1 (by decide)

/-- V1 environment: software current, first catalog read missing, network
install succeeding, but the re-read of the catalog status failing to
decode. -/
def rereadErrorEnv : Env1 :=
  ⟨RegKeyState.present (Except.ok CAP2020_SOFTWARE_CURRENT), Except.ok "", Except.ok "",
   CookieRead.openFail GoErr.pathErrNotExist,
   RegKeyState.absent, Except.ok "", Except.ok "",
   CookieRead.decodeFail (GoErr.errorf "unexpected EOF")⟩

/-- C8 fails on the code: the classification re-read after the network
install can return an error, and the run then terminates through
`ExitWithoutSuccess` (code 2), not through the hard-error path (code 1). -/
theorem main_v1_reread_error_exits_unsuccessful :
    (V1.GetCatalogStatus rereadErrorEnv.catalog2).2.isSome = true ∧
    (V1.main rereadErrorEnv).exit.code = 2 ∧
    (V1.main rereadErrorEnv).exit.label = "UNSUCCESSFUL" := by
  decide

/-- C8 amended: an error from the initial software-status read or the
initial catalog-status read terminates the V1 run through the hard-error
exit (code 1) with no remediation command launched, while an error from the
re-classification performed after the network install terminates the run
through the UNSUCCESSFUL exit (code 2) — still launching no further
remediation after the failing read. -/
theorem read_error_exit_paths :
    (∀ env : Env1, ∀ si sc e, GetSoftwareStatus env.software = (si, sc, some e) →
      V1.main env = ⟨[Event.readSoftwareStatus],
                     ExitWithError "Unable to check software status."⟩) ∧
    (∀ env : Env1, ∀ e, GetSoftwareStatus env.software = (true, true, none) →
      (V1.GetCatalogStatus env.catalog1).2 = some e →
      V1.main env = ⟨[Event.readSoftwareStatus, Event.readCatalogStatus],
                     ExitWithError "Unable to check for Network Deployment."⟩) ∧
    (∀ env : Env1, ∀ s, GetSoftwareStatus env.software = (true, true, none) →
      V1.GetCatalogStatus env.catalog1 = (CATALOG_STATE_MISSNG, none) →
      env.installCatalogRes = Except.ok s →
      (V1.GetCatalogStatus env.catalog2).2.isSome = true →
      V1.main env =
        ⟨[Event.readSoftwareStatus, Event.readCatalogStatus,
          Event.act ExtCmd.execInstallNetworkCatalog, Event.readCatalogStatus],
         ExitWithoutSuccess "Finish installing the catalog by using the wizard. You can close this window."⟩) := by
  refine ⟨?_, ?_, ?_⟩
  · intro env si sc e h1
    simp [V1.main, h1]
  · intro env e h1 h2
    rcases hc1 : V1.GetCatalogStatus env.catalog1 with ⟨st, oc⟩
    rw [hc1] at h2
    dsimp only at h2
    subst h2
    simp [V1.main, h1, hc1]
  · intro env s h1 h2 h3 h4
    rcases hc2 : V1.GetCatalogStatus env.catalog2 with ⟨st2, oc2⟩
    rw [hc2] at h4
    rcases oc2 with _ | e2
    · exact absurd h4 (by simp)
    · simp [V1.main, V1.installPhase, V1.InstallNetworkCatalog, h1, h2, h3, hc2,
        CATALOG_STATE_MISSNG, CATALOG_STATE_NETWORK, CATALOG_STATE_LOCAL]

/-- Witness for the amended C8: a concrete failing initial software read
exits through the hard-error path having launched nothing. -/
theorem read_error_exit_paths_inst :
    V1.main
        ⟨RegKeyState.openError GoErr.pathErrPermission, Except.ok "", Except.ok "",
         CookieRead.openFail GoErr.pathErrNotExist, RegKeyState.absent, Except.ok "",
         Except.ok "", CookieRead.openFail GoErr.pathErrNotExist⟩
      = ⟨[Event.readSoftwareStatus], ExitWithError "Unable to check software status."⟩ :=
  read_error_exit_paths.1
    ⟨RegKeyState.openError GoErr.pathErrPermission, Except.ok "", Except.ok "",
     CookieRead.openFail GoErr.pathErrNotExist, RegKeyState.absent, Except.ok "",
     Except.ok "", CookieRead.openFail GoErr.pathErrNotExist⟩
    false false
    (GoErr.wrapped "Cannot open registry key for software version" GoErr.pathErrPermission)
    (by decide)
